import Mathlib

/-!
Shallow embedding of the block-document editor core of
`src/components/NotionEditor.tsx` (the first `NotionEditor` component in
that file): the block data model, the structural edit operations
(`addBlock`, `updateBlock`, `changeBlockType`, `deleteBlock`, drag reorder),
the todo/toggle flips, the table and chart grid editors, and the overlay
menu flags, together with theorems settling the specification claims.

JavaScript `Date` values are modelled as natural-number timestamps: each
`addBlock` call receives the `Date.now()` value as an explicit argument.
Optional (`?:`) fields of the `Block` interface are modelled as `Option`;
a partial update object distinguishes an absent key (`none`) from a key
present with value `undefined` (`some none`), because object spread
overwrites with `undefined` when the key is present.
-/

/-- The `alignment` field values (`'left' | 'center' | 'right'`). -/
inductive TextAlignment where
  | left
  | center
  | right
deriving DecidableEq, Repr

/-- The 21 block type tags of the `Block` interface. -/
inductive BlockType where
  | paragraph
  | heading1
  | heading2
  | heading3
  | quote
  | code
  | list
  | numberedList
  | todo
  | toggle
  | image
  | divider
  | callout
  | table
  | chartBar
  | chartPie
  | calendar
  | file
  | video
  | audio
  | bookmark
deriving DecidableEq, Repr

/-- `tableData`: `{ headers: string[]; rows: string[][] }`. -/
structure TableData where
  headers : List String
  rows : List (List String)
deriving DecidableEq, Repr

/-- `chartData`: `{ labels: string[]; values: number[] }`.  The only values
the editor produces are integers (defaults 10, 20, 30 and appended 0), so
`values` is modelled over `Int`. -/
structure ChartData where
  labels : List String
  values : List Int
deriving DecidableEq, Repr

/-- The `Block` interface.  `children` is declared `Block[]` in the source
but the component only ever stores `[]` or `undefined` in it (it is retained
for forward compatibility and never populated), so its element type is
modelled as `Unit`.  `selectedDate` is a timestamp. -/
structure Block where
  id : String
  type : BlockType
  content : String
  alignment : Option TextAlignment
  checked : Option Bool
  collapsed : Option Bool
  children : Option (List Unit)
  color : Option String
  backgroundColor : Option String
  tableData : Option TableData
  chartData : Option ChartData
  toggleTitle : Option String
  toggleContent : Option String
  selectedDate : Option Nat
deriving DecidableEq, Repr

/-- A `Partial<Block>` update object as the editor's call sites build it.
The outer `Option` is key presence; for fields that are themselves optional
on `Block`, the inner `Option` is the stored value (`some none` models a key
present with value `undefined`, which object spread writes through).  No
call site in the component ever updates `id`, so the update surface carries
every `Block` field except `id`. -/
structure BlockUpdate where
  type : Option BlockType
  content : Option String
  alignment : Option (Option TextAlignment)
  checked : Option (Option Bool)
  collapsed : Option (Option Bool)
  children : Option (Option (List Unit))
  color : Option (Option String)
  backgroundColor : Option (Option String)
  tableData : Option (Option TableData)
  chartData : Option (Option ChartData)
  toggleTitle : Option (Option String)
  toggleContent : Option (Option String)
  selectedDate : Option (Option Nat)
deriving DecidableEq, Repr

/-- The update object with no keys present. -/
def emptyUpdate : BlockUpdate :=
  ⟨none, none, none, none, none, none, none, none, none, none, none, none, none⟩

/-- Object spread `{ ...block, ...updates }`: a key present in `updates`
overwrites the block's field (also when its value is `undefined`). -/
def mergeBlock (b : Block) (u : BlockUpdate) : Block where
  id := b.id
  type := u.type.getD b.type
  content := u.content.getD b.content
  alignment := u.alignment.getD b.alignment
  checked := u.checked.getD b.checked
  collapsed := u.collapsed.getD b.collapsed
  children := u.children.getD b.children
  color := u.color.getD b.color
  backgroundColor := u.backgroundColor.getD b.backgroundColor
  tableData := u.tableData.getD b.tableData
  chartData := u.chartData.getD b.chartData
  toggleTitle := u.toggleTitle.getD b.toggleTitle
  toggleContent := u.toggleContent.getD b.toggleContent
  selectedDate := u.selectedDate.getD b.selectedDate

/-- `updateBlock`: map every block, merging the updates into those whose id
matches (lines 180 to 186). -/
def updateBlock (doc : List Block) (id : String) (u : BlockUpdate) : List Block :=
  doc.map fun b => if b.id = id then mergeBlock b u else b

/-- The default table payload `{ headers: ['Column 1', 'Column 2'],
rows: [['', ''], ['', '']] }`. -/
def defaultTableData : TableData :=
  ⟨["Column 1", "Column 2"], [["", ""], ["", ""]]⟩

/-- The default chart payload `{ labels: ['A', 'B', 'C'],
values: [10, 20, 30] }`. -/
def defaultChartData : ChartData :=
  ⟨["A", "B", "C"], [10, 20, 30]⟩

/-- The new block literal built at the top of `addBlock` (lines 143 to 156);
`now` is the `Date.now()` value, which also forms the id. -/
def newBlock (ty : BlockType) (now : Nat) : Block where
  id := "block-" ++ toString now
  type := ty
  content := ""
  alignment := some TextAlignment.left
  checked := if ty = BlockType.todo then some false else none
  collapsed := if ty = BlockType.toggle then some false else none
  children := if ty = BlockType.toggle then some [] else none
  color := none
  backgroundColor := none
  tableData := if ty = BlockType.table then some defaultTableData else none
  chartData :=
    if ty = BlockType.chartBar ∨ ty = BlockType.chartPie then some defaultChartData
    else none
  toggleTitle := if ty = BlockType.toggle then some "" else none
  toggleContent := if ty = BlockType.toggle then some "" else none
  selectedDate := if ty = BlockType.calendar then some now else none

/-- `Array.prototype.splice(k, 0, x)`: insert `x` at index `k` (clamped to
the end when `k` exceeds the length). -/
def spliceInsert {α : Type} (k : Nat) (x : α) (l : List α) : List α :=
  l.take k ++ x :: l.drop k

/-- `addBlock` (lines 142 to 178).  `if (afterId)` is false for `undefined`
and for the empty string, in which case the new block is appended; otherwise
`findIndex` locates `afterId` (yielding `-1` when absent) and the block is
spliced in at that index plus one, so an unknown non-empty `afterId` inserts
at index 0. -/
def addBlock (doc : List Block) (ty : BlockType) (afterId : Option String)
    (now : Nat) : List Block :=
  match afterId with
  | none => doc ++ [newBlock ty now]
  | some s =>
    if s = "" then doc ++ [newBlock ty now]
    else
      match doc.findIdx? (fun b => b.id = s) with
      | some i => spliceInsert (i + 1) (newBlock ty now) doc
      | none => spliceInsert 0 (newBlock ty now) doc

/-- The updates object built by `changeBlockType` (lines 192 to 208) from
the found block `b` and the target type: every key listed there is present,
with `undefined` (`some none`) for fields not belonging to the target type;
`content` is preserved for every non-toggle target and emptied for toggle. -/
def changeTypeUpdates (b : Block) (t : BlockType) : BlockUpdate where
  type := some t
  content := some (if t = BlockType.toggle then "" else b.content)
  alignment := none
  checked := some (if t = BlockType.todo then some false else none)
  collapsed := some (if t = BlockType.toggle then some false else none)
  children := some (if t = BlockType.toggle then some [] else none)
  color := none
  backgroundColor := none
  tableData := some (if t = BlockType.table then some defaultTableData else none)
  chartData :=
    some (if t = BlockType.chartBar ∨ t = BlockType.chartPie then some defaultChartData
      else none)
  toggleTitle := some (if t = BlockType.toggle then some b.content else none)
  toggleContent := some (if t = BlockType.toggle then some "" else none)
  selectedDate := none

/-- `changeBlockType` (lines 188 to 212): no-op when no block has the id,
otherwise `updateBlock` with the computed updates. -/
def changeBlockType (doc : List Block) (id : String) (t : BlockType) : List Block :=
  match doc.find? (fun b => b.id = id) with
  | none => doc
  | some b => updateBlock doc id (changeTypeUpdates b t)

/-- `deleteBlock` (lines 292 to 297): filters the id out, guarded by
`content.length > 1`. -/
def deleteBlock (doc : List Block) (id : String) : List Block :=
  if doc.length > 1 then doc.filter (fun b => ¬ (b.id = id)) else doc

/-- `toggleTodo` (lines 299 to 304): when a block with the id exists, write
`checked: !block.checked` (JavaScript `!undefined` is `true`), whatever the
block's type. -/
def toggleTodo (doc : List Block) (id : String) : List Block :=
  match doc.find? (fun b => b.id = id) with
  | none => doc
  | some b =>
    updateBlock doc id { emptyUpdate with checked := some (some (!(b.checked.getD false))) }

/-- `toggleCollapse` (lines 306 to 311): same shape for `collapsed`. -/
def toggleCollapse (doc : List Block) (id : String) : List Block :=
  match doc.find? (fun b => b.id = id) with
  | none => doc
  | some b =>
    updateBlock doc id { emptyUpdate with collapsed := some (some (!(b.collapsed.getD false))) }

/-- `handleDragSort` (lines 314 to 322): remove the dragged element and
splice it back in at the target index.  The indices come from rendered list
positions, so the source index is always in range; an out-of-range source
index is modelled as a no-op. -/
def moveBlock (doc : List Block) (fromIdx toIdx : Nat) : List Block :=
  match doc[fromIdx]? with
  | none => doc
  | some b => spliceInsert toIdx b (doc.eraseIdx fromIdx)

/-- `addChartDataPoint`'s chart payload transform (lines 356 to 359). -/
def chartAddPoint (cd : ChartData) : ChartData :=
  ⟨cd.labels ++ ["Item " ++ toString (cd.labels.length + 1)], cd.values ++ [0]⟩

/-- `removeChartDataPoint`'s chart payload transform (lines 367 to 370):
filter index `i` out of both sequences. -/
def chartRemovePoint (cd : ChartData) (i : Nat) : ChartData :=
  ⟨cd.labels.eraseIdx i, cd.values.eraseIdx i⟩

/-- `addChartDataPoint` (lines 353 to 362). -/
def addChartDataPoint (doc : List Block) (blockId : String) : List Block :=
  match doc.find? (fun b => b.id = blockId) with
  | none => doc
  | some b =>
    match b.chartData with
    | none => doc
    | some cd =>
      updateBlock doc blockId { emptyUpdate with chartData := some (some (chartAddPoint cd)) }

/-- `removeChartDataPoint` (lines 364 to 373), guarded by
`labels.length > 1`. -/
def removeChartDataPoint (doc : List Block) (blockId : String) (i : Nat) : List Block :=
  match doc.find? (fun b => b.id = blockId) with
  | none => doc
  | some b =>
    match b.chartData with
    | none => doc
    | some cd =>
      if cd.labels.length > 1 then
        updateBlock doc blockId { emptyUpdate with chartData := some (some (chartRemovePoint cd i)) }
      else doc

/-- `addTableRow`'s table payload transform (lines 379 to 383): append a row
of empty cells sized to the current header count. -/
def tableAddRow (td : TableData) : TableData :=
  { td with rows := td.rows ++ [List.replicate td.headers.length ""] }

/-- `addTableColumn`'s table payload transform (lines 391 to 396). -/
def tableAddColumn (td : TableData) : TableData :=
  ⟨td.headers ++ ["Column " ++ toString (td.headers.length + 1)],
    td.rows.map (fun r => r ++ [""])⟩

/-- `removeTableRow`'s table payload transform (line 404): filter the row
index out. -/
def tableRemoveRow (td : TableData) (i : Nat) : TableData :=
  { td with rows := td.rows.eraseIdx i }

/-- `removeTableColumn`'s table payload transform (lines 416 to 421): filter
the column index out of the headers and of every row. -/
def tableRemoveColumn (td : TableData) (i : Nat) : TableData :=
  ⟨td.headers.eraseIdx i, td.rows.map (fun r => r.eraseIdx i)⟩

/-- The header cell edit in the table renderer (lines 510 to 512):
`headers[index] = value`. -/
def tableSetHeader (td : TableData) (i : Nat) (v : String) : TableData :=
  { td with headers := td.headers.set i v }

/-- The body cell edit in the table renderer (lines 538 to 540):
`rows[rowIndex][cellIndex] = value`. -/
def tableSetCell (td : TableData) (r c : Nat) (v : String) : TableData :=
  match td.rows[r]? with
  | none => td
  | some row => { td with rows := td.rows.set r (row.set c v) }

/-- `addTableRow` (lines 376 to 386). -/
def addTableRow (doc : List Block) (blockId : String) : List Block :=
  match doc.find? (fun b => b.id = blockId) with
  | none => doc
  | some b =>
    match b.tableData with
    | none => doc
    | some td =>
      updateBlock doc blockId { emptyUpdate with tableData := some (some (tableAddRow td)) }

/-- `addTableColumn` (lines 388 to 399). -/
def addTableColumn (doc : List Block) (blockId : String) : List Block :=
  match doc.find? (fun b => b.id = blockId) with
  | none => doc
  | some b =>
    match b.tableData with
    | none => doc
    | some td =>
      updateBlock doc blockId { emptyUpdate with tableData := some (some (tableAddColumn td)) }

/-- `removeTableRow` (lines 401 to 411), guarded by `rows.length > 1`. -/
def removeTableRow (doc : List Block) (blockId : String) (i : Nat) : List Block :=
  match doc.find? (fun b => b.id = blockId) with
  | none => doc
  | some b =>
    match b.tableData with
    | none => doc
    | some td =>
      if td.rows.length > 1 then
        updateBlock doc blockId { emptyUpdate with tableData := some (some (tableRemoveRow td i)) }
      else doc

/-- `removeTableColumn` (lines 413 to 424), guarded by
`headers.length > 1`. -/
def removeTableColumn (doc : List Block) (blockId : String) (i : Nat) : List Block :=
  match doc.find? (fun b => b.id = blockId) with
  | none => doc
  | some b =>
    match b.tableData with
    | none => doc
    | some td =>
      if td.headers.length > 1 then
        updateBlock doc blockId { emptyUpdate with tableData := some (some (tableRemoveColumn td i)) }
      else doc

/-- A single table grid mutation, with the guards of the corresponding
document-level handlers. -/
inductive TableOp where
  | addRow
  | addColumn
  | removeRow (i : Nat)
  | removeColumn (i : Nat)
  | setHeader (i : Nat) (v : String)
  | setCell (r c : Nat) (v : String)
deriving DecidableEq, Repr

/-- Apply one table grid mutation to a table payload, with the source's
one-row and one-column floor guards. -/
def applyTableOp (op : TableOp) (td : TableData) : TableData :=
  match op with
  | TableOp.addRow => tableAddRow td
  | TableOp.addColumn => tableAddColumn td
  | TableOp.removeRow i => if td.rows.length > 1 then tableRemoveRow td i else td
  | TableOp.removeColumn i => if td.headers.length > 1 then tableRemoveColumn td i else td
  | TableOp.setHeader i v => tableSetHeader td i v
  | TableOp.setCell r c v => tableSetCell td r c v

/-- The initial document: one welcome paragraph (lines 65 to 67). -/
def editorInit : List Block :=
  [{ id := "block-1"
     type := BlockType.paragraph
     content := "Welcome to your editor! Type `/` for commands."
     alignment := some TextAlignment.left
     checked := none
     collapsed := none
     children := none
     color := none
     backgroundColor := none
     tableData := none
     chartData := none
     toggleTitle := none
     toggleContent := none
     selectedDate := none }]

/-- One structural editor operation; `add` carries the `Date.now()` value
the call observes. -/
inductive EditorOp where
  | add (ty : BlockType) (afterId : Option String) (now : Nat)
  | update (id : String) (u : BlockUpdate)
  | changeTy (id : String) (ty : BlockType)
  | delete (id : String)
  | move (fromIdx toIdx : Nat)
deriving DecidableEq, Repr

/-- Apply one structural operation to the document. -/
def applyOp (doc : List Block) (op : EditorOp) : List Block :=
  match op with
  | EditorOp.add ty afterId now => addBlock doc ty afterId now
  | EditorOp.update id u => updateBlock doc id u
  | EditorOp.changeTy id ty => changeBlockType doc id ty
  | EditorOp.delete id => deleteBlock doc id
  | EditorOp.move fromIdx toIdx => moveBlock doc fromIdx toIdx

/-- Apply a sequence of structural operations from left to right. -/
def applyOps (doc : List Block) (ops : List EditorOp) : List Block :=
  ops.foldl applyOp doc

/-- An operation is collision-free on a document when, if it is an `add`,
the id generated from its timestamp is not already present. -/
def freshOkB (doc : List Block) (op : EditorOp) : Bool :=
  match op with
  | EditorOp.add _ _ now => decide (("block-" ++ toString now) ∉ doc.map Block.id)
  | _ => true

/-- Every `add` along the run of the operation sequence is
collision-free. -/
def freshAlongB (doc : List Block) : List EditorOp → Bool
  | [] => true
  | op :: ops => freshOkB doc op && freshAlongB (applyOp doc op) ops

/-- The five exclusive-overlay flags of the editor (lines 69 to 76):
`showBlockMenu`, `showSlashMenu` (its anchor position is irrelevant to
exclusivity and dropped), `isImageModalOpen`, `showFormatMenu`,
`showTypeMenu`. -/
structure OverlayState where
  showBlockMenu : Option String
  showSlashMenu : Option String
  isImageModalOpen : Option String
  showFormatMenu : Bool
  showTypeMenu : Option String
deriving DecidableEq, Repr

/-- Initial overlay state: everything closed. -/
def overlayInit : OverlayState := ⟨none, none, none, false, none⟩

/-- The overlay-affecting events of the component.  `clickOutside` is the
document `mousedown` handler (lines 119 to 139), with one flag per tracked
region saying whether the target lies outside it; the image modal is not
tracked there.  `addBlockMenus`, `changeTypeMenus` and `deleteBlockMenus`
are the menu side effects of `addBlock`, `changeBlockType` and
`deleteBlock`.  `textSelection` is `handleTextSelection` (lines 253 to 276)
with the selection facts it branches on. -/
inductive MenuEvent where
  | clickOutside (outBlock outSlash outFormat outType : Bool)
  | addBlockMenus
  | changeTypeMenus
  | deleteBlockMenus
  | slashOpen (blockId : String)
  | slashEscape
  | textSelection (blockId : String) (nonCollapsed widthPositive : Bool)
  | applyFormatEnd
  | typeToggle (blockId : String)
  | blockToggle (blockId : String)
  | imageOpen (blockId : String)
  | imageClose
deriving DecidableEq, Repr

/-- Apply one overlay event, exactly as the corresponding handler sets the
five flags. -/
def applyMenuEvent (s : OverlayState) (e : MenuEvent) : OverlayState :=
  match e with
  | MenuEvent.clickOutside outBlock outSlash outFormat outType =>
    { s with
      showBlockMenu := if outBlock then none else s.showBlockMenu
      showSlashMenu := if outSlash then none else s.showSlashMenu
      showFormatMenu := if outFormat then false else s.showFormatMenu
      showTypeMenu := if outType then none else s.showTypeMenu }
  | MenuEvent.addBlockMenus => { s with showBlockMenu := none, showSlashMenu := none }
  | MenuEvent.changeTypeMenus => { s with showTypeMenu := none }
  | MenuEvent.deleteBlockMenus => { s with showBlockMenu := none }
  | MenuEvent.slashOpen blockId => { s with showSlashMenu := some blockId }
  | MenuEvent.slashEscape => { s with showSlashMenu := none }
  | MenuEvent.textSelection _ nonCollapsed widthPositive =>
    if nonCollapsed && widthPositive then { s with showFormatMenu := true }
    else { s with showFormatMenu := false }
  | MenuEvent.applyFormatEnd => { s with showFormatMenu := false }
  | MenuEvent.typeToggle blockId =>
    { s with showTypeMenu := if s.showTypeMenu = some blockId then none else some blockId }
  | MenuEvent.blockToggle blockId =>
    { s with showBlockMenu := if s.showBlockMenu = some blockId then none else some blockId }
  | MenuEvent.imageOpen blockId => { s with isImageModalOpen := some blockId }
  | MenuEvent.imageClose => { s with isImageModalOpen := none }

/-- Apply a sequence of overlay events from left to right. -/
def applyMenuEvents (s : OverlayState) (es : List MenuEvent) : OverlayState :=
  es.foldl applyMenuEvent s

/-- How many overlays are open. -/
def openCount (s : OverlayState) : Nat :=
  (if s.showBlockMenu.isSome then 1 else 0) +
  (if s.showSlashMenu.isSome then 1 else 0) +
  (if s.isImageModalOpen.isSome then 1 else 0) +
  (if s.showFormatMenu then 1 else 0) +
  (if s.showTypeMenu.isSome then 1 else 0)

/-- The ten content-preserving block types of the transition policy. -/
def isContentPreserving (t : BlockType) : Bool :=
  match t with
  | BlockType.paragraph => true
  | BlockType.heading1 => true
  | BlockType.heading2 => true
  | BlockType.heading3 => true
  | BlockType.quote => true
  | BlockType.code => true
  | BlockType.list => true
  | BlockType.numberedList => true
  | BlockType.todo => true
  | BlockType.callout => true
  | _ => false

/-- A block with every optional field absent, for concrete documents in
witnesses and counterexamples. -/
def mkPlainBlock (id : String) (ty : BlockType) (content : String) : Block :=
  ⟨id, ty, content, none, none, none, none, none, none, none, none, none, none, none⟩

/-- A one-block document holding a `heading1` block with content
`"hello"`. -/
def demoDoc : List Block := [mkPlainBlock "b1" BlockType.heading1 "hello"]

/-- A document with a one-row one-column table block and a one-point chart
block, at the grid editors' floors. -/
def demoFloorDoc : List Block :=
  [{ mkPlainBlock "t1" BlockType.table "" with tableData := some ⟨["Column 1"], [[""]]⟩ },
   { mkPlainBlock "c1" BlockType.chartBar "" with chartData := some ⟨["A"], [10]⟩ }]

/-! ## Helper lemmas -/

/-- Merging a partial update never changes the id: the update surface has no
id key. -/
theorem mergeBlock_id (b : Block) (u : BlockUpdate) : (mergeBlock b u).id = b.id := rfl

/-- `updateBlock` preserves the id sequence. -/
theorem ids_updateBlock (doc : List Block) (id : String) (u : BlockUpdate) :
    (updateBlock doc id u).map Block.id = doc.map Block.id := by
  unfold updateBlock
  rw [List.map_map]
  apply List.map_congr_left
  intro a _
  by_cases h : a.id = id
  · simp [h, mergeBlock_id]
  · simp [h]

/-- Searching for the target id after `updateBlock` finds the merged version
of whatever block the search found before. -/
theorem find?_updateBlock (doc : List Block) (id : String) (u : BlockUpdate) :
    (updateBlock doc id u).find? (fun x => x.id = id)
      = (doc.find? (fun x => x.id = id)).map (fun b => mergeBlock b u) := by
  induction doc with
  | nil => rfl
  | cons a l ih =>
    simp only [updateBlock, List.map_cons]
    by_cases h : a.id = id
    · rw [if_pos h, List.find?_cons_of_pos _ (by simp [mergeBlock_id, h]),
        List.find?_cons_of_pos _ (by simp [h])]
      rfl
    · rw [if_neg h, List.find?_cons_of_neg _ (by simp [h]),
        List.find?_cons_of_neg _ (by simp [h])]
      exact ih

/-- A splice insertion is a permutation of consing the element on. -/
theorem spliceInsert_perm {α : Type} (k : Nat) (x : α) (l : List α) :
    (spliceInsert k x l).Perm (x :: l) := by
  unfold spliceInsert
  have h1 : (l.take k ++ x :: l.drop k).Perm (x :: (l.take k ++ l.drop k)) :=
    List.perm_middle
  rwa [List.take_append_drop] at h1

/-- A list is a permutation of any of its elements consed onto the remainder
after erasing that element's index. -/
theorem perm_cons_eraseIdx {α : Type} :
    ∀ (l : List α) (i : Nat) (b : α), l[i]? = some b → l.Perm (b :: l.eraseIdx i)
  | [], i, b, h => by simp at h
  | a :: l, 0, b, h => by
    rw [List.getElem?_cons_zero, Option.some_inj] at h
    subst h
    rw [List.eraseIdx_cons_zero]
  | a :: l, i + 1, b, h => by
    rw [List.getElem?_cons_succ] at h
    rw [List.eraseIdx_cons_succ]
    exact ((perm_cons_eraseIdx l i b h).cons a).trans (List.Perm.swap b a _)

/-- Whatever the `afterId`, `addBlock` produces a permutation of the new
block consed onto the old document. -/
theorem addBlock_perm (doc : List Block) (ty : BlockType) (afterId : Option String)
    (now : Nat) : (addBlock doc ty afterId now).Perm (newBlock ty now :: doc) := by
  cases afterId with
  | none => exact List.perm_append_singleton _ _
  | some s =>
    simp only [addBlock]
    by_cases hs : s = ""
    · rw [if_pos hs]
      exact List.perm_append_singleton _ _
    · rw [if_neg hs]
      cases hfi : doc.findIdx? (fun b => b.id = s) with
      | some i =>
        simp only [hfi]
        exact spliceInsert_perm _ _ _
      | none =>
        simp only [hfi]
        exact spliceInsert_perm _ _ _

/-- Every structural operation preserves nonemptiness and id distinctness,
provided an `add` does not reuse an id already in the document. -/
theorem applyOp_inv (doc : List Block) (op : EditorOp) (h1 : 1 ≤ doc.length)
    (h2 : (doc.map Block.id).Nodup) (h3 : freshOkB doc op = true) :
    1 ≤ (applyOp doc op).length ∧ ((applyOp doc op).map Block.id).Nodup := by
  cases op with
  | add ty afterId now =>
    have hp : (applyOp doc (EditorOp.add ty afterId now)).Perm (newBlock ty now :: doc) :=
      addBlock_perm doc ty afterId now
    have hfresh : ("block-" ++ toString now) ∉ doc.map Block.id :=
      of_decide_eq_true h3
    constructor
    · rw [hp.length_eq]
      simp
    · have hids := hp.map Block.id
      rw [hids.nodup_iff]
      rw [List.map_cons, List.nodup_cons]
      exact ⟨hfresh, h2⟩
  | update id u =>
    simp only [applyOp]
    constructor
    · rw [updateBlock, List.length_map]
      exact h1
    · rw [ids_updateBlock]
      exact h2
  | changeTy id ty =>
    simp only [applyOp]
    cases hf : doc.find? (fun b => b.id = id) with
    | none =>
      simp only [changeBlockType, hf]
      exact ⟨h1, h2⟩
    | some b =>
      simp only [changeBlockType, hf]
      constructor
      · rw [updateBlock, List.length_map]
        exact h1
      · rw [ids_updateBlock]
        exact h2
  | delete id =>
    simp only [applyOp, deleteBlock]
    by_cases hlen : doc.length > 1
    · rw [if_pos hlen]
      constructor
      · by_contra hc
        push_neg at hc
        have hall := List.filter_eq_nil_iff.mp (List.length_eq_zero.mp (Nat.lt_one_iff.mp hc))
        cases doc with
        | nil => simp at hlen
        | cons b1 tl =>
          cases tl with
          | nil => simp at hlen
          | cons b2 rest =>
            have e1 : b1.id = id := by simpa using hall b1 (by simp)
            have e2 : b2.id = id := by simpa using hall b2 (by simp)
            rw [List.map_cons, List.map_cons, List.nodup_cons] at h2
            exact h2.1 (by rw [e1, ← e2]; exact List.mem_cons_self _ _)
      · exact List.Nodup.sublist (List.Sublist.map Block.id (List.filter_sublist doc)) h2
    · rw [if_neg hlen]
      exact ⟨h1, h2⟩
  | move fromIdx toIdx =>
    simp only [applyOp]
    cases hg : doc[fromIdx]? with
    | none =>
      simp only [moveBlock, hg]
      exact ⟨h1, h2⟩
    | some b =>
      simp only [moveBlock, hg]
      have hp : (spliceInsert toIdx b (doc.eraseIdx fromIdx)).Perm doc :=
        (spliceInsert_perm _ _ _).trans (perm_cons_eraseIdx doc fromIdx b hg).symm
      constructor
      · rw [hp.length_eq]
        exact h1
      · exact ((hp.map Block.id).nodup_iff).mpr h2

/-! ## Claim theorems -/

/-- Claim C1, counterexample to the claim as stated: in the initial one-block
document, `addBlock` with the unknown non-empty `afterId` `"zzz"` puts the
new block at index 0 (`findIndex` returns `-1`, and `splice(-1 + 1, 0, nb)`
inserts at the front), not at the end as the claim requires. -/
theorem C1_counterexample :
    (addBlock editorInit BlockType.paragraph (some "zzz") 5).map Block.id
      = ["block-5", "block-1"]
    ∧ ¬ ((addBlock editorInit BlockType.paragraph (some "zzz") 5).map Block.id
      = ["block-1", "block-5"]) := by
  decide

/-- Claim C1 as amended: `addBlock(t, afterId)` with `afterId` the id of an
existing block inserts the new block at that block's index plus one;
`addBlock(t)` with `afterId` omitted appends at the end; but `addBlock`
with a non-empty `afterId` matching no block inserts the new block at the
front (index 0) rather than appending. -/
theorem C1_addBlock_insertion (doc : List Block) (ty : BlockType) (now : Nat) :
    (∀ (s : String) (i : Nat), ¬ (s = "") →
      doc.findIdx? (fun b => b.id = s) = some i →
      addBlock doc ty (some s) now = spliceInsert (i + 1) (newBlock ty now) doc)
    ∧ addBlock doc ty none now = doc ++ [newBlock ty now]
    ∧ (∀ s : String, ¬ (s = "") →
      doc.findIdx? (fun b => b.id = s) = none →
      addBlock doc ty (some s) now = newBlock ty now :: doc) := by
  refine ⟨?_, rfl, ?_⟩
  · intro s i hs hfi
    simp only [addBlock, if_neg hs, hfi]
  · intro s hs hfi
    simp only [addBlock, if_neg hs, hfi]
    rfl

/-- Witness for C1 at concrete inputs: insertion after `"block-1"`, append
with no `afterId`, and front insertion for the unknown id `"zz"`. -/
theorem C1_witness :
    addBlock editorInit BlockType.todo (some "block-1") 9
        = spliceInsert 1 (newBlock BlockType.todo 9) editorInit
    ∧ addBlock editorInit BlockType.todo none 9 = editorInit ++ [newBlock BlockType.todo 9]
    ∧ addBlock editorInit BlockType.todo (some "zz") 9
        = newBlock BlockType.todo 9 :: editorInit :=
  ⟨(C1_addBlock_insertion editorInit BlockType.todo 9).1 "block-1" 0 (by decide) (by decide),
   (C1_addBlock_insertion editorInit BlockType.todo 9).2.1,
   (C1_addBlock_insertion editorInit BlockType.todo 9).2.2 "zz" (by decide) (by decide)⟩

/-- Claim C2, counterexample to the claim as stated: retyping a `heading1`
block with content `"hello"` into `table` keeps the content `"hello"`; the
code resets `content` only for the `toggle` target, not for table, chart or
calendar targets. -/
theorem C2_counterexample :
    ((changeBlockType demoDoc "b1" BlockType.table).find? (fun x => x.id = "b1")).map
        Block.content = some "hello"
    ∧ ¬ (((changeBlockType demoDoc "b1" BlockType.table).find? (fun x => x.id = "b1")).map
        Block.content = some "") := by
  decide

/-- Claim C2 as amended: `changeType` into `table` installs the 2-by-2
default table, into `chart-bar`/`chart-pie` the default `[A,B,C]`/`[10,20,30]`
chart, clearing the structured fields of the other types, but `content` is
preserved (not reset) for these targets; into `calendar` no `selectedDate`
is installed (the prior value, if any, is kept) and `content` is preserved;
only into `toggle` is `content` reset to empty, with `toggleTitle` seeded
from the previous content and `toggleContent` empty. -/
theorem C2_structured_targets (doc : List Block) (id : String) (b : Block)
    (hfind : doc.find? (fun x => x.id = id) = some b) :
    (changeBlockType doc id BlockType.table).find? (fun x => x.id = id)
        = some { b with
                 type := BlockType.table
                 content := b.content
                 checked := none
                 collapsed := none
                 children := none
                 tableData := some defaultTableData
                 chartData := none
                 toggleTitle := none
                 toggleContent := none }
    ∧ (changeBlockType doc id BlockType.chartBar).find? (fun x => x.id = id)
        = some { b with
                 type := BlockType.chartBar
                 content := b.content
                 checked := none
                 collapsed := none
                 children := none
                 tableData := none
                 chartData := some defaultChartData
                 toggleTitle := none
                 toggleContent := none }
    ∧ (changeBlockType doc id BlockType.chartPie).find? (fun x => x.id = id)
        = some { b with
                 type := BlockType.chartPie
                 content := b.content
                 checked := none
                 collapsed := none
                 children := none
                 tableData := none
                 chartData := some defaultChartData
                 toggleTitle := none
                 toggleContent := none }
    ∧ (changeBlockType doc id BlockType.calendar).find? (fun x => x.id = id)
        = some { b with
                 type := BlockType.calendar
                 content := b.content
                 checked := none
                 collapsed := none
                 children := none
                 tableData := none
                 chartData := none
                 toggleTitle := none
                 toggleContent := none
                 selectedDate := b.selectedDate }
    ∧ (changeBlockType doc id BlockType.toggle).find? (fun x => x.id = id)
        = some { b with
                 type := BlockType.toggle
                 content := ""
                 checked := none
                 collapsed := some false
                 children := some []
                 tableData := none
                 chartData := none
                 toggleTitle := some b.content
                 toggleContent := some "" } := by
  refine ⟨?_, ?_, ?_, ?_, ?_⟩ <;>
    · simp only [changeBlockType, hfind, find?_updateBlock]
      rfl

/-- Witness for C2 at the concrete one-block document: the `table` retype of
the `"hello"` heading. -/
theorem C2_witness :
    (changeBlockType demoDoc "b1" BlockType.table).find? (fun x => x.id = "b1")
        = some { mkPlainBlock "b1" BlockType.heading1 "hello" with
                 type := BlockType.table
                 content := "hello"
                 checked := none
                 collapsed := none
                 children := none
                 tableData := some defaultTableData
                 chartData := none
                 toggleTitle := none
                 toggleContent := none } :=
  (C2_structured_targets demoDoc "b1" (mkPlainBlock "b1" BlockType.heading1 "hello")
    (by decide)).1

/-- Claim C3, counterexample to the claim as stated: two `addBlock` calls in
the same millisecond (`Date.now() = 7` twice) give both new blocks the id
`block-7`; deleting `block-1` and then `block-7` (`filter` removes every
block carrying the id) empties the document, so the at-least-one-block
invariant fails over this operation sequence. -/
theorem C3_counterexample :
    ¬ (1 ≤ (applyOps editorInit
      [EditorOp.add BlockType.paragraph none 7, EditorOp.add BlockType.paragraph none 7,
       EditorOp.delete "block-1", EditorOp.delete "block-7"]).length) := by
  decide

/-- Claim C3 as amended: for every operation sequence from the initial
one-block document in which each `addBlock` call's generated id is fresh
(true whenever the observed `Date.now()` values are distinct), the document
always has at least one block; and `deleteBlock` on a document of size 1
leaves the document unchanged for every id. -/
theorem C3_at_least_one_block :
    (∀ ops : List EditorOp, freshAlongB editorInit ops = true →
      1 ≤ (applyOps editorInit ops).length)
    ∧ (∀ (doc : List Block) (id : String), doc.length = 1 → deleteBlock doc id = doc) := by
  constructor
  · have key : ∀ (ops : List EditorOp) (doc : List Block), 1 ≤ doc.length →
        (doc.map Block.id).Nodup → freshAlongB doc ops = true →
        1 ≤ (applyOps doc ops).length := by
      intro ops
      induction ops with
      | nil => intro doc h1 _ _; exact h1
      | cons op ops ih =>
        intro doc h1 h2 h3
        simp only [freshAlongB, Bool.and_eq_true] at h3
        have h := applyOp_inv doc op h1 h2 h3.1
        exact ih (applyOp doc op) h.1 h.2 h3.2
    intro ops h
    exact key ops editorInit (by decide) (by decide) h
  · intro doc id h
    simp [deleteBlock, h]

/-- Witness for C3: a fresh single `add` keeps the document nonempty, and
`deleteBlock` on the concrete one-block document is the identity. -/
theorem C3_witness :
    1 ≤ (applyOps editorInit [EditorOp.add BlockType.todo none 5]).length
    ∧ deleteBlock demoDoc "b1" = demoDoc :=
  ⟨C3_at_least_one_block.1 [EditorOp.add BlockType.todo none 5] (by decide),
   C3_at_least_one_block.2 demoDoc "b1" (by decide)⟩

/-- Claim C4, counterexample to the claim as stated: open the image modal,
then toggle the type menu open; nothing closes the image modal (the outside
mousedown handler does not track it and the type-menu toggle touches only
its own flag), so two overlays are open simultaneously. -/
theorem C4_counterexample :
    ¬ (openCount (applyMenuEvents overlayInit
      [MenuEvent.imageOpen "b1", MenuEvent.typeToggle "b1"]) ≤ 1) := by
  decide

/-- Claim C4 as amended: the overlay flags are independent, so opening one
overlay does not close the others and two overlays can be open at once;
what does hold is that all overlays start closed, a mousedown outside every
tracked region closes the block, slash, format and type menus (but not the
image modal, which is untracked), and `addBlock` closes the block and slash
menus. -/
theorem C4_overlay_closing (s : OverlayState) :
    (applyMenuEvent s (MenuEvent.clickOutside true true true true)).showBlockMenu = none
    ∧ (applyMenuEvent s (MenuEvent.clickOutside true true true true)).showSlashMenu = none
    ∧ (applyMenuEvent s (MenuEvent.clickOutside true true true true)).showFormatMenu = false
    ∧ (applyMenuEvent s (MenuEvent.clickOutside true true true true)).showTypeMenu = none
    ∧ (applyMenuEvent s (MenuEvent.clickOutside true true true true)).isImageModalOpen
        = s.isImageModalOpen
    ∧ (applyMenuEvent s MenuEvent.addBlockMenus).showBlockMenu = none
    ∧ (applyMenuEvent s MenuEvent.addBlockMenus).showSlashMenu = none
    ∧ openCount overlayInit = 0 :=
  ⟨rfl, rfl, rfl, rfl, rfl, rfl, rfl, rfl⟩

/-- Claim C5: every single table grid mutation preserves the invariant that
each row has exactly as many cells as there are headers. -/
theorem C5_grid_invariant (op : TableOp) (td : TableData)
    (h : ∀ r ∈ td.rows, r.length = td.headers.length) :
    ∀ r ∈ (applyTableOp op td).rows, r.length = (applyTableOp op td).headers.length := by
  cases op with
  | addRow =>
    intro r hr
    simp only [applyTableOp, tableAddRow, List.mem_append, List.mem_singleton] at hr ⊢
    rcases hr with hr | hr
    · exact h r hr
    · rw [hr, List.length_replicate]
  | addColumn =>
    intro r hr
    simp only [applyTableOp, tableAddColumn, List.mem_map] at hr ⊢
    obtain ⟨r0, hr0, hr⟩ := hr
    rw [← hr]
    simp [h r0 hr0]
  | removeRow i =>
    simp only [applyTableOp]
    by_cases hg : td.rows.length > 1
    · rw [if_pos hg]
      intro r hr
      exact h r (List.Sublist.mem hr (by simpa [tableRemoveRow] using List.eraseIdx_sublist td.rows i))
    · rw [if_neg hg]
      exact h
  | removeColumn i =>
    simp only [applyTableOp]
    by_cases hg : td.headers.length > 1
    · rw [if_pos hg]
      intro r hr
      simp only [tableRemoveColumn, List.mem_map] at hr
      obtain ⟨r0, hr0, hr⟩ := hr
      rw [← hr]
      simp only [tableRemoveColumn]
      rw [List.length_eraseIdx, List.length_eraseIdx, h r0 hr0]
    · rw [if_neg hg]
      exact h
  | setHeader i v =>
    intro r hr
    simp only [applyTableOp, tableSetHeader, List.length_set] at hr ⊢
    exact h r hr
  | setCell rIdx cIdx v =>
    simp only [applyTableOp, tableSetCell]
    cases hg : td.rows[rIdx]? with
    | none => exact h
    | some row =>
      intro r hr
      simp only at hr
      rcases List.mem_or_eq_of_mem_set hr with hmem | heq
      · exact h r hmem
      · rw [heq, List.length_set]
        exact h row (List.getElem?_mem hg)

/-- Witness for C5: adding a column to the default 2-by-2 table keeps every
row as long as the header list. -/
theorem C5_witness :
    (["", "", ""] : List String).length
      = (applyTableOp TableOp.addColumn defaultTableData).headers.length :=
  C5_grid_invariant TableOp.addColumn defaultTableData (by decide) ["", "", ""] (by decide)

/-- Claim C6: retyping between two content-preserving types keeps `content`
unchanged and clears `checked`, `collapsed`, `tableData` and `chartData`
(with the target's own default, `checked = false`, when the target is
`todo`); the toggle fields are cleared as well, and untouched fields such as
alignment, colors and `selectedDate` carry over from the block. -/
theorem C6_content_preserving_transition (doc : List Block) (id : String) (b : Block)
    (s t : BlockType) (hfind : doc.find? (fun x => x.id = id) = some b)
    (_hbs : b.type = s) (_hs : isContentPreserving s = true)
    (ht : isContentPreserving t = true) :
    (changeBlockType doc id t).find? (fun x => x.id = id)
      = some { b with
               type := t
               content := b.content
               checked := if t = BlockType.todo then some false else none
               collapsed := none
               children := none
               tableData := none
               chartData := none
               toggleTitle := none
               toggleContent := none } := by
  simp only [changeBlockType, hfind, find?_updateBlock]
  cases t <;> first
    | exact absurd ht (by decide)
    | rfl

/-- Witness for C6: the `"hello"` heading retyped to a paragraph keeps its
content and carries no stale type-specific fields. -/
theorem C6_witness :
    (changeBlockType demoDoc "b1" BlockType.paragraph).find? (fun x => x.id = "b1")
      = some { mkPlainBlock "b1" BlockType.heading1 "hello" with
               type := BlockType.paragraph
               content := "hello"
               checked := none
               collapsed := none
               children := none
               tableData := none
               chartData := none
               toggleTitle := none
               toggleContent := none } :=
  C6_content_preserving_transition demoDoc "b1" (mkPlainBlock "b1" BlockType.heading1 "hello")
    BlockType.heading1 BlockType.paragraph (by decide) rfl (by decide) (by decide)

/-- Claim C7: `removeRow` on a one-row table, `removeColumn` on a one-column
table and `removeDataPoint` on a one-point chart are no-ops for every index
argument. -/
theorem C7_floor_noops (doc : List Block) (id : String) (i : Nat) (b : Block)
    (hfind : doc.find? (fun x => x.id = id) = some b) :
    (∀ td : TableData, b.tableData = some td → td.rows.length = 1 →
      removeTableRow doc id i = doc)
    ∧ (∀ td : TableData, b.tableData = some td → td.headers.length = 1 →
      removeTableColumn doc id i = doc)
    ∧ (∀ cd : ChartData, b.chartData = some cd → cd.labels.length = 1 →
      removeChartDataPoint doc id i = doc) := by
  refine ⟨?_, ?_, ?_⟩ <;> intro x hx hlen <;>
    simp [removeTableRow, removeTableColumn, removeChartDataPoint, hfind, hx, hlen]

/-- Witness for C7 at the concrete floor document: all three removals with
index 0 leave the document unchanged. -/
theorem C7_witness :
    removeTableRow demoFloorDoc "t1" 0 = demoFloorDoc
    ∧ removeTableColumn demoFloorDoc "t1" 0 = demoFloorDoc
    ∧ removeChartDataPoint demoFloorDoc "c1" 0 = demoFloorDoc :=
  ⟨(C7_floor_noops demoFloorDoc "t1" 0
      { mkPlainBlock "t1" BlockType.table "" with tableData := some ⟨["Column 1"], [[""]]⟩ }
      (by decide)).1 ⟨["Column 1"], [[""]]⟩ (by decide) (by decide),
   (C7_floor_noops demoFloorDoc "t1" 0
      { mkPlainBlock "t1" BlockType.table "" with tableData := some ⟨["Column 1"], [[""]]⟩ }
      (by decide)).2.1 ⟨["Column 1"], [[""]]⟩ (by decide) (by decide),
   (C7_floor_noops demoFloorDoc "c1" 0
      { mkPlainBlock "c1" BlockType.chartBar "" with chartData := some ⟨["A"], [10]⟩ }
      (by decide)).2.2 ⟨["A"], [10]⟩ (by decide) (by decide)⟩

/-- Claim C8: id generation is `block-` plus `Date.now()`, so two `addBlock`
calls observing the same millisecond assign the same id to both new blocks,
and the id-uniqueness invariant fails. -/
theorem C8_id_collision :
    ¬ (((applyOps editorInit
      [EditorOp.add BlockType.paragraph none 7,
       EditorOp.add BlockType.paragraph none 7]).map Block.id).Nodup) := by
  decide

/-- Claim C9, counterexample to the claim as stated: `toggleTodo` on the
initial paragraph block (not a todo) is not a no-op; it writes
`checked := !undefined = true` onto the paragraph. -/
theorem C9_counterexample :
    ¬ (toggleTodo editorInit "block-1" = editorInit) := by
  decide

/-- Claim C9 as amended: `toggleTodo` and `toggleCollapse` are no-ops when
no block has the id; when a block is found they flip `checked` (resp.
`collapsed`, with absent treated as `false`) regardless of the block's
current type. -/
theorem C9_toggle_behaviour (doc : List Block) (id : String) :
    ((∀ b ∈ doc, ¬ (b.id = id)) → toggleTodo doc id = doc ∧ toggleCollapse doc id = doc)
    ∧ (∀ b : Block, doc.find? (fun x => x.id = id) = some b →
      (toggleTodo doc id).find? (fun x => x.id = id)
          = some { b with checked := some (!(b.checked.getD false)) }
      ∧ (toggleCollapse doc id).find? (fun x => x.id = id)
          = some { b with collapsed := some (!(b.collapsed.getD false)) }) := by
  constructor
  · intro habs
    have hf : doc.find? (fun x => x.id = id) = none :=
      List.find?_eq_none.mpr (by intro x hx; simpa using habs x hx)
    constructor <;> simp [toggleTodo, toggleCollapse, hf]
  · intro b hfind
    constructor <;> simp only [toggleTodo, toggleCollapse, hfind, find?_updateBlock] <;> rfl

/-- Witness for C9: an absent id leaves the demo document unchanged, and on
the present id both flips set the flag to `true`. -/
theorem C9_witness :
    (toggleTodo demoDoc "zz" = demoDoc ∧ toggleCollapse demoDoc "zz" = demoDoc)
    ∧ ((toggleTodo demoDoc "b1").find? (fun x => x.id = "b1")
        = some { mkPlainBlock "b1" BlockType.heading1 "hello" with checked := some true }
      ∧ (toggleCollapse demoDoc "b1").find? (fun x => x.id = "b1")
        = some { mkPlainBlock "b1" BlockType.heading1 "hello" with collapsed := some true }) :=
  ⟨(C9_toggle_behaviour demoDoc "zz").1 (by decide),
   (C9_toggle_behaviour demoDoc "b1").2 (mkPlainBlock "b1" BlockType.heading1 "hello")
     (by decide)⟩

/-- Claim C10: `updateBlock` preserves the number and relative order of
blocks, leaves every block at a position whose id differs from the target
unchanged, and is the identity when no block carries the target id. -/
theorem C10_updateBlock_frame (doc : List Block) (id : String) (u : BlockUpdate) :
    (updateBlock doc id u).length = doc.length
    ∧ (∀ (i : Nat) (b : Block), doc[i]? = some b → ¬ (b.id = id) →
      (updateBlock doc id u)[i]? = some b)
    ∧ ((∀ b ∈ doc, ¬ (b.id = id)) → updateBlock doc id u = doc) := by
  refine ⟨by simp [updateBlock], ?_, ?_⟩
  · intro i b hg hne
    simp [updateBlock, List.getElem?_map, hg, hne]
  · intro habs
    simp only [updateBlock]
    have hcongr : ∀ b ∈ doc, (if b.id = id then mergeBlock b u else b) = b := by
      intro b hb
      rw [if_neg (habs b hb)]
    rw [List.map_congr_left hcongr]
    simp

/-- Witness for C10 at the concrete one-block document with an absent id:
length, the untouched position 0, and full identity. -/
theorem C10_witness :
    (updateBlock demoDoc "zz" emptyUpdate).length = demoDoc.length
    ∧ (updateBlock demoDoc "zz" emptyUpdate)[0]?
        = some (mkPlainBlock "b1" BlockType.heading1 "hello")
    ∧ updateBlock demoDoc "zz" emptyUpdate = demoDoc :=
  ⟨(C10_updateBlock_frame demoDoc "zz" emptyUpdate).1,
   (C10_updateBlock_frame demoDoc "zz" emptyUpdate).2.1 0
     (mkPlainBlock "b1" BlockType.heading1 "hello") (by decide) (by decide),
   (C10_updateBlock_frame demoDoc "zz" emptyUpdate).2.2 (by decide)⟩
